import Mathlib

/-!
Verification of the Growtopia Google-login module (`src/growtopia_login.rs`).

The Rust source is shallowly embedded: pure helpers become Lean functions,
the browser launch, the network-event channel and the page interactions
become explicit environment records whose fields carry the outcome of each
fallible external call, and randomness becomes an explicit sequence of
draws.  Machine-level details that the claims depend on are modelled
explicitly below: Rust `str::split` on a one-character pattern,
`str::contains`, `str::to_lowercase` (restricted to ASCII, which covers
every string the module manipulates), the `urlencoding` crate's percent
decoder including its UTF-8 re-validation, and matchability of the regex
`(?i)growtopia.*?token`.
-/

namespace Mori

/-- `startsWithL pat l` holds when `pat` is a leading segment of `l`. -/
def startsWithL : List Char → List Char → Bool
  | [], _ => true
  | _ :: _, [] => false
  | p :: ps, c :: cs => p == c && startsWithL ps cs

/-- `hasSubL pat l` holds when `pat` occurs as a contiguous run inside `l`;
character-level model of Rust `str::contains` with a string pattern. -/
def hasSubL (pat : List Char) : List Char → Bool
  | [] => pat.isEmpty
  | c :: cs => startsWithL pat (c :: cs) || hasSubL pat cs

/-- Model of Rust `str::contains` with a string (or single-char) pattern. -/
def strContains (s pat : String) : Bool := hasSubL pat.data s.data

/-- Model of Rust `str::to_lowercase`.  The module only lowercases
form-encoded ASCII bodies, where `Char.toLower` agrees with Unicode
lowercasing. -/
def strToLower (s : String) : String := String.mk (s.data.map Char.toLower)

/-- Model of Rust `str::split` with a one-character separator: the output
has one entry more than there are separators and is never empty. -/
def splitOnChar (sep : Char) : List Char → List (List Char)
  | [] => [[]]
  | c :: cs =>
    if c == sep then [] :: splitOnChar sep cs
    else
      match splitOnChar sep cs with
      | h :: t => (c :: h) :: t
      | [] => [[c]]

/-- Rust `s.split(sep).collect::<Vec<&str>>()`. -/
def strSplit (s : String) (sep : Char) : List String :=
  (splitOnChar sep s.data).map String.mk

/-- The `urlencoding` crate's `from_hex_digit`. -/
def hexVal (c : Char) : Option Nat :=
  if '0' ≤ c ∧ c ≤ '9' then some (c.toNat - 48)
  else if 'a' ≤ c ∧ c ≤ 'f' then some (c.toNat - 87)
  else if 'A' ≤ c ∧ c ≤ 'F' then some (c.toNat - 55)
  else none

/-- UTF-8 encoding of one Unicode scalar value, as byte values. -/
def utf8Bytes (c : Char) : List Nat :=
  let n := c.toNat
  if n < 128 then [n]
  else if n < 2048 then [192 + n / 64, 128 + n % 64]
  else if n < 65536 then [224 + n / 4096, 128 + n / 64 % 64, 128 + n % 64]
  else [240 + n / 262144, 128 + n / 4096 % 64, 128 + n / 64 % 64, 128 + n % 64]

/-- Byte-level percent decoding as implemented by
`urlencoding::decode_binary`: a `%` followed by two hex digits becomes one
byte; a `%` followed by a hex digit and a non-hex character keeps the `%`
and the digit literally and rescans from the non-hex character; any other
`%` is kept literally and scanning resumes at the next character. -/
def pctDecodeBytes : List Char → List Nat
  | [] => []
  | '%' :: a :: b :: rest =>
    match hexVal a, hexVal b with
    | some x, some y => (16 * x + y) :: pctDecodeBytes rest
    | some _, none => 37 :: (utf8Bytes a ++ pctDecodeBytes (b :: rest))
    | none, _ => 37 :: pctDecodeBytes (a :: b :: rest)
  | ['%', a] => 37 :: pctDecodeBytes [a]
  | ['%'] => [37]
  | c :: rest => utf8Bytes c ++ pctDecodeBytes rest

/-- Is `b` a UTF-8 continuation byte? -/
def isCont (b : Nat) : Bool := 128 ≤ b && b ≤ 191

/-- UTF-8 decoding with fuel, mirroring the validation Rust
`String::from_utf8` performs: overlong forms, surrogate values and values
above `0x10FFFF` are rejected. -/
def utf8DecodeAux : Nat → List Nat → Option (List Char)
  | _, [] => some []
  | 0, _ :: _ => none
  | fuel + 1, b :: rest =>
    if b < 128 then
      (utf8DecodeAux fuel rest).map (fun cs => Char.ofNat b :: cs)
    else if 194 ≤ b ∧ b ≤ 223 then
      match rest with
      | c1 :: rest1 =>
        if isCont c1 then
          (utf8DecodeAux fuel rest1).map
            (fun cs => Char.ofNat ((b - 192) * 64 + (c1 - 128)) :: cs)
        else none
      | [] => none
    else if 224 ≤ b ∧ b ≤ 239 then
      match rest with
      | c1 :: c2 :: rest2 =>
        if isCont c1 ∧ isCont c2
            ∧ 2048 ≤ (b - 224) * 4096 + (c1 - 128) * 64 + (c2 - 128)
            ∧ ¬(55296 ≤ (b - 224) * 4096 + (c1 - 128) * 64 + (c2 - 128)
                ∧ (b - 224) * 4096 + (c1 - 128) * 64 + (c2 - 128) ≤ 57343) then
          (utf8DecodeAux fuel rest2).map
            (fun cs => Char.ofNat ((b - 224) * 4096 + (c1 - 128) * 64 + (c2 - 128)) :: cs)
        else none
      | _ => none
    else if 240 ≤ b ∧ b ≤ 244 then
      match rest with
      | c1 :: c2 :: c3 :: rest3 =>
        if isCont c1 ∧ isCont c2 ∧ isCont c3
            ∧ 65536 ≤ (b - 240) * 262144 + (c1 - 128) * 4096 + (c2 - 128) * 64 + (c3 - 128)
            ∧ (b - 240) * 262144 + (c1 - 128) * 4096 + (c2 - 128) * 64 + (c3 - 128) ≤ 1114111 then
          (utf8DecodeAux fuel rest3).map
            (fun cs =>
              Char.ofNat ((b - 240) * 262144 + (c1 - 128) * 4096 + (c2 - 128) * 64 + (c3 - 128)) :: cs)
        else none
      | _ => none
    else none

/-- UTF-8 decoding of a byte sequence; `none` is a validation failure. -/
def utf8Decode (bs : List Nat) : Option (List Char) := utf8DecodeAux bs.length bs

/-- Model of `urlencoding::decode`: percent-decode the bytes of the string
and re-validate them as UTF-8; `none` models the `Err` (invalid UTF-8)
case. -/
def urlencoding_decode (s : String) : Option String :=
  (utf8Decode (pctDecodeBytes s.data)).map String.mk

/-- Matchability kernel for the regex `(?i)growtopia.*?token` (built by
`Regex::new(r"(?i)growtopia.*?token")` in `token_task`): some occurrence
of `growtopia` must be followed, with no intervening newline (regex `.`
excludes line feeds), by an occurrence of `token`.  The input is already
lowercased, which models the case-insensitive flag for ASCII. -/
def gtMatchAux : List Char → Bool
  | [] => false
  | c :: cs =>
    (startsWithL "growtopia".data (c :: cs)
      && hasSubL "token".data (List.takeWhile (fun d => d != '\n') (List.drop 8 cs)))
    || gtMatchAux cs

/-- `growtopia_token_regex.is_match(params)`. -/
def growtopia_token_regex_is_match (s : String) : Bool :=
  gtMatchAux (s.data.map Char.toLower)

/-- Snapshot of one outbound request, the part of
`EventRequestWillBeSent` read by `token_task`. -/
structure RequestEvent where
  url : String
  post_data : Option String

/-- Finishing step applied to the raw captured value: percent-decode when
a `%` is present, keeping the raw value when decoding fails; this is
`urlencoding::decode(&token_value).unwrap_or(token_value)` guarded by
`token_value.contains('%')` in the source. -/
def finishTokenValue (v : String) : String :=
  if strContains v "%" then
    match urlencoding_decode v with
    | some d => d
    | none => v
  else v

/-- The fragment loop of `token_task`: the first fragment that
(case-insensitively) mentions `token` and splits on `=` into at least two
parts yields `parts[1]` (finished by `finishTokenValue`) and stops the
scan; every other fragment is skipped. -/
def scanFragments : List String → Option String
  | [] => none
  | param :: rest =>
    if strContains (strToLower param) "token" then
      match strSplit param '=' with
      | _ :: v :: _ => some (finishTokenValue v)
      | _ => scanFragments rest
    else scanFragments rest

/-- Processing of a single channel event by `token_task`; returns the new
contents of the shared token slot. -/
def processEvent (slot : Option String) (ev : RequestEvent) : Option String :=
  if strContains ev.url "growtopiagame.com" && strContains ev.url "login" then
    match ev.post_data with
    | some params =>
      if growtopia_token_regex_is_match params then
        match scanFragments (strSplit params '&') with
        | some v => some v
        | none => slot
      else slot
    | none => slot
  else slot

/-- The whole `token_task` receive loop, run over the events delivered to
the channel before the task is cancelled, in emission order. -/
def processEvents (evs : List RequestEvent) : Option String :=
  evs.foldl processEvent none

/-- Uppercase hexadecimal digit of a value below 16. -/
def hexDigit (n : Nat) : Char :=
  if n < 10 then Char.ofNat (48 + n) else Char.ofNat (55 + n)

/-- Rust formatting of a byte as two uppercase hex digits
(format specifier `02X`; the argument is always below 256 here). -/
def format02X (b : Nat) : String := String.mk [hexDigit (b / 16), hexDigit (b % 16)]

/-- `generate_random_mac_address`, with the six `gen_range(0..=255)` draws
supplied as `r 0 .. r 5` (`% 256` makes the range of a draw intrinsic). -/
def generate_random_mac_address (r : Nat → Nat) : String :=
  String.intercalate ":" ((List.range 6).map (fun i => format02X (r i % 256)))

/-- `generate_rid`: sixteen byte draws formatted `02X` and concatenated. -/
def generate_rid (r : Nat → Nat) : String :=
  String.join ((List.range 16).map (fun i => format02X (r i % 256)))

/-- `generate_random_hex`: `length` draws from `gen_range(0..16)`, each
formatted as a single uppercase hex digit. -/
def generate_random_hex (r : Nat → Nat) (length : Nat) : String :=
  String.join ((List.range length).map (fun i => String.mk [hexDigit (r i % 16)]))

/-- The static user-agent pool of `generate_random_user_agent`. -/
def user_agents : List String :=
  ["Mozilla/5.0 (Windows NT 10.0; Win64; x64) AppleWebKit/537.36 (KHTML, like Gecko) Chrome/91.0.4472.124 Safari/537.36",
   "Mozilla/5.0 (Windows NT 10.0; Win64; x64) AppleWebKit/537.36 (KHTML, like Gecko) Chrome/92.0.4515.107 Safari/537.36",
   "Mozilla/5.0 (Windows NT 10.0; Win64; x64) AppleWebKit/537.36 (KHTML, like Gecko) Chrome/93.0.4577.63 Safari/537.36",
   "Mozilla/5.0 (Windows NT 10.0; Win64; x64) AppleWebKit/537.36 (KHTML, like Gecko) Chrome/94.0.4606.81 Safari/537.36",
   "Mozilla/5.0 (Windows NT 10.0; Win64; x64) AppleWebKit/537.36 (KHTML, like Gecko) Chrome/95.0.4638.54 Safari/537.36"]

/-- `generate_random_user_agent`, with the `gen_range(0..uas.len())` draw
supplied as `r` (`% 5` makes the range intrinsic). -/
def generate_random_user_agent (r : Nat) : String :=
  user_agents.getD (r % user_agents.length) ""

/-- `LoginCredentials` from the source. -/
structure LoginCredentials where
  email : String
  password : String
  recovery_email : Option String
  proxy : Option String
  headless : Bool

/-- `LoginResult` from the source. -/
structure LoginResult where
  success : Bool
  token : Option String
  user_agent : Option String
  mac_address : Option String
  error : Option String
deriving DecidableEq

/-- Outcomes of the fallible page interactions performed by
`google_login_flow`, supplied as an environment.  A `find_*` field tells
whether `find_element` succeeded; an `Except.error e` in an interaction
field carries the collaborator's raw error text `e`, before the flow's own
message formatting is applied. -/
structure FlowEnv where
  goto_google : Except String Unit
  find_email : Bool
  email_click_type : Except String Unit
  find_identifier_next : Bool
  identifier_next_click : Except String Unit
  find_pass : Bool
  pass_click_type : Except String Unit
  find_password_next : Bool
  password_next_click : Except String Unit
  find_recovery : Bool
  recovery_click_type : Except String Unit
  find_recovery_next : Bool
  recovery_next_click : Except String Unit
  goto_growtopia : Except String Unit

/-- `google_login_flow` (including the final `connect_to_growtopia`
navigation) over a `FlowEnv`.  The recovery-email interactions are
performed but their results are dropped, mirroring the `let _ = ...`
bindings in the source; the `?`-propagated steps abort with the exact
message the source formats. -/
def google_login_flow (env : FlowEnv) (credentials : LoginCredentials) : Except String Unit :=
  match env.goto_google with
  | .error e => .error ("[Google Login] Failed to open login page: " ++ e)
  | .ok _ =>
    if env.find_email then
      match env.email_click_type with
      | .error e => .error ("[Google Login] Failed to enter email: " ++ e)
      | .ok _ =>
        match (if env.find_identifier_next then
                 match env.identifier_next_click with
                 | .error e => Except.error ("[Google Login] Failed to click next button: " ++ e)
                 | .ok _ => Except.ok ()
               else Except.ok ()) with
        | .error e => .error e
        | .ok _ =>
          if env.find_pass then
            match env.pass_click_type with
            | .error e => .error ("[Google Login] Failed to enter password: " ++ e)
            | .ok _ =>
              match (if env.find_password_next then
                       match env.password_next_click with
                       | .error e =>
                         Except.error ("[Google Login] Failed to click password next button: " ++ e)
                       | .ok _ => Except.ok ()
                     else Except.ok ()) with
              | .error e => .error e
              | .ok _ =>
                let _recovery : Unit :=
                  match credentials.recovery_email with
                  | some recovery =>
                    if recovery ≠ "" then
                      if env.find_recovery then
                        let _ := env.recovery_click_type
                        if env.find_recovery_next then
                          let _ := env.recovery_next_click
                          ()
                        else ()
                      else ()
                    else ()
                  | none => ()
                match env.goto_growtopia with
                | .error e => .error ("[Growtopia] Failed to navigate to Growtopia login: " ++ e)
                | .ok _ => .ok ()
          else .error "[Google Login] Password input not found"
    else .error "[Google Login] Email input not found"

/-- Outcomes of the launch phase of `perform_google_login` — the three
`.unwrap()`ed calls (config build, browser launch, first page) — together
with the request events delivered to `token_task` before cancellation and
the page-interaction outcomes of the login flow. -/
structure BrowserEnv where
  config_build : Except String Unit
  launch : Except String Unit
  new_page : Except String Unit
  events : List RequestEvent
  flow : FlowEnv

/-- The result assembly at the end of `perform_google_login`: the token
slot is consulted first, then a driver failure, then the distinct
no-token failure. -/
def deriveResult (captured : Option String) (login_result : Except String Unit)
    (r_ua : Nat) (r_mac : Nat → Nat) : LoginResult :=
  match captured with
  | some token_value =>
    { success := true, token := some token_value,
      user_agent := some (generate_random_user_agent r_ua),
      mac_address := some (generate_random_mac_address r_mac), error := none }
  | none =>
    match login_result with
    | .error e =>
      { success := false, token := none, user_agent := none, mac_address := none,
        error := some e }
    | .ok _ =>
      { success := false, token := none, user_agent := none, mac_address := none,
        error := some "Login successful but no token captured" }

/-- `perform_google_login` with the `chromiumoxide` feature enabled.
`Except.error` models a panic raised by one of the three `.unwrap()`
calls (the launch phase has no error path in the source: it unwraps); a
normal return is `Except.ok` of the `LoginResult`. -/
def perform_google_login (env : BrowserEnv) (credentials : LoginCredentials)
    (r_ua : Nat) (r_mac : Nat → Nat) : Except String LoginResult :=
  match env.config_build with
  | .error e => .error e
  | .ok _ =>
    match env.launch with
    | .error e => .error e
    | .ok _ =>
      match env.new_page with
      | .error e => .error e
      | .ok _ =>
        let captured_token := processEvents env.events
        let login_result := google_login_flow env.flow credentials
        .ok (deriveResult captured_token login_result r_ua r_mac)

/-- The `LoginResult` returned by `perform_google_login` when the
`chromiumoxide` feature is disabled. -/
def perform_google_login_disabled : LoginResult :=
  { success := false, token := none, user_agent := none, mac_address := none,
    error := some "Google login backend not enabled. Enable feature 'chromiumoxide' in Cargo.toml" }

/-! ### Shared concrete fixtures -/

/-- A fixed credentials value used by the concrete runs below. -/
def creds0 : LoginCredentials :=
  { email := "user@example.com", password := "hunter2", recovery_email := none,
    proxy := none, headless := true }

/-- A fixed random sequence used by the concrete runs below. -/
def rng0 : Nat → Nat := fun _ => 0

/-- A page-interaction environment in which every mandatory step succeeds
and no optional element is found. -/
def allOkFlow : FlowEnv :=
  { goto_google := .ok (), find_email := true, email_click_type := .ok (),
    find_identifier_next := false, identifier_next_click := .ok (),
    find_pass := true, pass_click_type := .ok (),
    find_password_next := false, password_next_click := .ok (),
    find_recovery := false, recovery_click_type := .ok (),
    find_recovery_next := false, recovery_next_click := .ok (),
    goto_growtopia := .ok () }

/-- A launch-phase environment in which everything succeeds and no request
event is delivered. -/
def allOkEnv : BrowserEnv :=
  { config_build := .ok (), launch := .ok (), new_page := .ok (),
    events := [], flow := allOkFlow }

/-! ### Helper lemmas on the string model -/

theorem hasSubL_nil (t : List Char) : hasSubL [] t = true := by
  cases t <;> simp [hasSubL, startsWithL]

theorem startsWithL_append (pat l t : List Char) (h : startsWithL pat l = true) :
    startsWithL pat (l ++ t) = true := by
  induction pat generalizing l with
  | nil => simp [startsWithL]
  | cons p ps ih =>
    cases l with
    | nil => simp [startsWithL] at h
    | cons c cs =>
      simp only [List.cons_append, startsWithL, Bool.and_eq_true] at h ⊢
      exact ⟨h.1, ih cs h.2⟩

theorem hasSubL_append_left (pat l t : List Char) (h : hasSubL pat l = true) :
    hasSubL pat (l ++ t) = true := by
  induction l with
  | nil =>
    simp only [hasSubL, List.isEmpty_iff] at h
    subst h
    simpa using hasSubL_nil t
  | cons c cs ih =>
    simp only [hasSubL, Bool.or_eq_true] at h
    rcases h with h | h
    · have := startsWithL_append pat (c :: cs) t h
      simp only [List.cons_append] at this ⊢
      simp [hasSubL, this]
    · simp only [List.cons_append, hasSubL, Bool.or_eq_true]
      exact Or.inr (ih h)

theorem hasSubL_singleton (a : Char) (l : List Char) : hasSubL [a] l = true ↔ a ∈ l := by
  induction l with
  | nil => simp [hasSubL]
  | cons c cs ih =>
    simp [hasSubL, startsWithL, ih]

theorem splitOnChar_sep_free (sep : Char) (l : List Char) (h : sep ∉ l) :
    splitOnChar sep l = [l] := by
  induction l with
  | nil => rfl
  | cons c cs ih =>
    have hc : (c == sep) = false := by
      simp only [beq_eq_false_iff_ne, ne_eq]
      rintro rfl
      exact h (List.mem_cons_self _ _)
    have hcs : sep ∉ cs := fun hm => h (List.mem_cons_of_mem _ hm)
    simp [splitOnChar, hc, ih hcs]

theorem splitOnChar_append (sep : Char) (k r : List Char) (h : sep ∉ k) :
    splitOnChar sep (k ++ sep :: r) = k :: splitOnChar sep r := by
  induction k with
  | nil => simp [splitOnChar]
  | cons c cs ih =>
    have hc : (c == sep) = false := by
      simp only [beq_eq_false_iff_ne, ne_eq]
      rintro rfl
      exact h (List.mem_cons_self _ _)
    have hcs : sep ∉ cs := fun hm => h (List.mem_cons_of_mem _ hm)
    simp [splitOnChar, hc, ih hcs]

theorem splitOnChar_head (sep : Char) (r : List Char) :
    ∃ t, splitOnChar sep r = (r.takeWhile (fun c => c != sep)) :: t := by
  induction r with
  | nil => exact ⟨[], rfl⟩
  | cons c cs ih =>
    by_cases hc : c = sep
    · subst hc
      refine ⟨splitOnChar c cs, ?_⟩
      simp [splitOnChar, List.takeWhile_cons]
    · obtain ⟨t, ht⟩ := ih
      have hb : (c == sep) = false := by simp [hc]
      refine ⟨t, ?_⟩
      simp [splitOnChar, hb, ht, List.takeWhile_cons, hc]

theorem splitOnChar_parts_of_mem (sep : Char) (l : List Char) (h : sep ∈ l) :
    ∃ p q t, splitOnChar sep l = p :: q :: t := by
  induction l with
  | nil => cases h
  | cons c cs ih =>
    by_cases hc : c = sep
    · subst hc
      obtain ⟨t, ht⟩ := splitOnChar_head c cs
      refine ⟨[], List.takeWhile (fun d => d != c) cs, t, ?_⟩
      simp [splitOnChar, ht]
    · have hm : sep ∈ cs := by
        rcases List.mem_cons.mp h with h1 | h1
        · exact absurd h1.symm hc
        · exact h1
      obtain ⟨p, q, t, hpq⟩ := ih hm
      have hb : (c == sep) = false := by simp [hc]
      exact ⟨c :: p, q, t, by simp [splitOnChar, hb, hpq]⟩

theorem strLength_mk (l : List Char) : (String.mk l).length = l.length := rfl

theorem strLength_append (s t : String) : (s ++ t).length = s.length + t.length := by
  cases s with
  | mk a =>
    cases t with
    | mk b =>
      show (a ++ b).length = a.length + b.length
      exact List.length_append a b

theorem foldl_append_length (l : List String) (s : String) :
    (l.foldl (· ++ ·) s).length = s.length + (l.map String.length).sum := by
  induction l generalizing s with
  | nil => simp
  | cons a t ih =>
    simp only [List.foldl_cons, ih, List.map_cons, List.sum_cons, strLength_append]
    omega

theorem join_length (l : List String) :
    (String.join l).length = (l.map String.length).sum := by
  simpa [String.join] using foldl_append_length l ""

theorem sum_map_const {α : Type} (l : List α) (k : Nat) :
    (l.map (fun _ => k)).sum = k * l.length := by
  induction l with
  | nil => simp
  | cons a t ih =>
    simp only [List.map_cons, List.sum_cons, ih, List.length_cons, Nat.mul_succ]
    ring

/-- The sixteen uppercase hexadecimal digit characters. -/
def hexUpperChars : List Char := "0123456789ABCDEF".data

theorem hexDigit_mem : ∀ m : Nat, m < 16 → hexDigit m ∈ hexUpperChars := by decide

theorem format02X_length (b : Nat) : (format02X b).length = 2 := rfl

theorem strData_append (s t : String) : (s ++ t).data = s.data ++ t.data := by
  cases s
  cases t
  rfl

theorem foldl_append_data (l : List String) (s : String) :
    (l.foldl (· ++ ·) s).data = s.data ++ (l.map String.data).flatten := by
  induction l generalizing s with
  | nil => simp
  | cons a t ih =>
    simp [List.foldl_cons, ih, strData_append]

theorem join_data (l : List String) : (String.join l).data = (l.map String.data).flatten := by
  simpa [String.join] using foldl_append_data l ""

theorem format02X_chars (b : Nat) (hb : b < 256) :
    ∀ ch ∈ (format02X b).data, ch ∈ hexUpperChars := by
  intro ch hch
  have hdiv : b / 16 < 16 := Nat.div_lt_of_lt_mul (by omega)
  have hmod : b % 16 < 16 := Nat.mod_lt _ (by norm_num)
  have hch' : ch ∈ [hexDigit (b / 16), hexDigit (b % 16)] := hch
  rcases List.mem_cons.mp hch' with h | h
  · rw [h]
    exact hexDigit_mem _ hdiv
  · rcases List.mem_cons.mp h with h' | h'
    · rw [h']
      exact hexDigit_mem _ hmod
    · cases h'

/-! ### Claim C1 -/

/-- Claim C1 fails on the code: the regex built in `token_task` requires
`growtopia` to occur in the request body before `token`, and the body
`a=1&my_token=abc%20def` of the claimed event does not contain
`growtopia`, so processing the event leaves the token slot unset instead
of setting it to `abc def`. -/
theorem c1_counterexample :
    processEvent none ⟨"https://growtopiagame.com/login", some "a=1&my_token=abc%20def"⟩
        ≠ some "abc def"
      ∧ processEvent none ⟨"https://growtopiagame.com/login", some "a=1&my_token=abc%20def"⟩
        = none := by
  decide

/-- Claim C1 amended: for an input request event whose URL contains the
target-domain substring and the path substring `login`, and whose body
additionally satisfies the case-insensitive growtopia-then-token body
pattern — e.g. `growtopia=1&my_token=abc%20def` — the token extractor
sets the shared token slot to `abc def` (the percent-decoded value). -/
theorem c1_amended (url : String)
    (h1 : strContains url "growtopiagame.com" = true)
    (h2 : strContains url "login" = true) :
    processEvent none ⟨url, some "growtopia=1&my_token=abc%20def"⟩ = some "abc def" := by
  simp only [processEvent, h1, h2, Bool.and_self]
  decide

/-- Witness for the amended C1 at a concrete qualifying URL. -/
theorem c1_witness :
    processEvent none ⟨"https://www.growtopiagame.com/google/login", some "growtopia=1&my_token=abc%20def"⟩
      = some "abc def" :=
  c1_amended "https://www.growtopiagame.com/google/login" (by decide) (by decide)

/-! ### Claim C5 -/

/-- Claim C5 fails on the code: for the fragment `token=a=b` the code takes
`parts[1]` of the `=`-split, i.e. `a`, not everything after the first `=`
(`a=b`). -/
theorem c5_counterexample :
    scanFragments ["token=a=b"] = some "a" ∧ scanFragments ["token=a=b"] ≠ some "a=b" := by
  decide

/-- Claim C5 amended: for a body fragment whose key (case-insensitively)
contains `token`, the extracted base value is the segment strictly between
the first and the second `=` (or up to the end when there is no second
`=`), not everything after the first `=`; if the value contains a percent
sign it is percent-decoded, and on decode failure the raw value is
kept. -/
theorem c5_amended (k r : List Char)
    (hk : '=' ∉ k)
    (ht : strContains (strToLower (String.mk k)) "token" = true) :
    scanFragments [String.mk (k ++ '=' :: r)]
        = some (finishTokenValue (String.mk (r.takeWhile (fun c => c != '='))))
      ∧ (∀ v : String, strContains v "%" = false → finishTokenValue v = v)
      ∧ (∀ v d : String, urlencoding_decode v = some d → strContains v "%" = true →
          finishTokenValue v = d)
      ∧ (∀ v : String, urlencoding_decode v = none → finishTokenValue v = v) := by
  refine ⟨?_, ?_, ?_, ?_⟩
  · have htok : strContains (strToLower (String.mk (k ++ '=' :: r))) "token" = true := by
      simp only [strToLower, strContains] at ht ⊢
      show hasSubL "token".data ((k ++ '=' :: r).map Char.toLower) = true
      rw [List.map_append]
      exact hasSubL_append_left _ _ _ ht
    obtain ⟨t, htl⟩ := splitOnChar_head '=' r
    have hsplit : strSplit (String.mk (k ++ '=' :: r)) '='
        = String.mk k :: String.mk (r.takeWhile (fun c => c != '=')) :: t.map String.mk := by
      unfold strSplit
      show (splitOnChar '=' (k ++ '=' :: r)).map String.mk = _
      rw [splitOnChar_append '=' k r hk, htl]
      rfl
    simp only [scanFragments, htok, if_true, hsplit]
  · intro v h
    simp [finishTokenValue, h]
  · intro v d hd hp
    simp [finishTokenValue, hp, hd]
  · intro v hd
    cases hc : strContains v "%" <;> simp [finishTokenValue, hc, hd]

/-- Witness for the amended C5: the fragment `my_token=abc` is processed to
the segment after its `=`. -/
theorem c5_witness :
    scanFragments [String.mk ("my_token".data ++ '=' :: "abc".data)]
      = some (finishTokenValue (String.mk ("abc".data.takeWhile (fun c => c != '=')))) :=
  (c5_amended "my_token".data "abc".data (by decide) (by decide)).1

/-! ### Claim C7 -/

/-- Claim C7: within one request event the fragment scan stops at the
first qualifying fragment — one that mentions `token` and contains an
`=` — and its result ignores the remaining fragments; a fragment that
mentions `token` but has no `=` is skipped without setting the slot and
scanning continues with the remaining fragments. -/
theorem c7_first_qualifying (frag : String) (rest : List String)
    (h1 : strContains (strToLower frag) "token" = true) :
    (strContains frag "=" = true →
      scanFragments (frag :: rest) = scanFragments [frag]
        ∧ (scanFragments [frag]).isSome = true)
    ∧ (strContains frag "=" = false →
      scanFragments (frag :: rest) = scanFragments rest) := by
  constructor
  · intro he
    have hmem : '=' ∈ frag.data := by
      have hsub : hasSubL ['='] frag.data = true := he
      exact (hasSubL_singleton '=' frag.data).mp hsub
    obtain ⟨p, q, t, hpq⟩ := splitOnChar_parts_of_mem '=' frag.data hmem
    have hsplit : strSplit frag '=' = String.mk p :: String.mk q :: t.map String.mk := by
      unfold strSplit
      rw [hpq]
      rfl
    constructor
    · simp only [scanFragments, h1, if_true, hsplit]
    · simp only [scanFragments, h1, if_true, hsplit, Option.isSome_some]
  · intro he
    have hmem : '=' ∉ frag.data := by
      intro hm
      have hsub := (hasSubL_singleton '=' frag.data).mpr hm
      have he' : hasSubL ['='] frag.data = false := he
      rw [he'] at hsub
      exact Bool.noConfusion hsub
    have hsplit : strSplit frag '=' = [frag] := by
      unfold strSplit
      rw [splitOnChar_sep_free '=' frag.data hmem]
      rfl
    simp only [scanFragments, h1, if_true, hsplit]

/-- Witness for C7: `my_token=x` qualifies, so the scan stops there and the
later fragments are irrelevant. -/
theorem c7_witness :
    scanFragments ["my_token=x", "other=y"] = scanFragments ["my_token=x"]
      ∧ (scanFragments ["my_token=x"]).isSome = true :=
  (c7_first_qualifying "my_token=x" ["other=y"] (by decide)).1 (by decide)

/-! ### Claim C8 -/

/-- Claim C8: on a request event with a qualifying URL whose body is
`a=1&other=xyz` (no key containing `token`), the token slot stays
unset. -/
theorem c8_no_token_key (url : String)
    (h1 : strContains url "growtopiagame.com" = true)
    (h2 : strContains url "login" = true) :
    processEvent none ⟨url, some "a=1&other=xyz"⟩ = none := by
  simp only [processEvent, h1, h2, Bool.and_self]
  decide

/-- Witness for C8 at a concrete qualifying URL. -/
theorem c8_witness :
    processEvent none ⟨"https://growtopiagame.com/login", some "a=1&other=xyz"⟩ = none :=
  c8_no_token_key "https://growtopiagame.com/login" (by decide) (by decide)

/-! ### Claim C9 -/

/-- Claim C9: for every random draw sequence, the MAC-style output is six
colon-separated groups of two uppercase hex digits, the rid output is
exactly 32 uppercase hex characters, and a requested hex string of length
`len` has exactly length `len`. -/
theorem c9_generators :
    (∀ r : Nat → Nat, ∃ gs : List String,
      gs.length = 6
        ∧ (∀ g ∈ gs, g.length = 2 ∧ ∀ ch ∈ g.data, ch ∈ hexUpperChars)
        ∧ generate_random_mac_address r = String.intercalate ":" gs)
      ∧ (∀ r : Nat → Nat, (generate_rid r).length = 32
          ∧ ∀ ch ∈ (generate_rid r).data, ch ∈ hexUpperChars)
      ∧ (∀ (r : Nat → Nat) (len : Nat), (generate_random_hex r len).length = len) := by
  refine ⟨?_, ?_, ?_⟩
  · intro r
    refine ⟨(List.range 6).map (fun i => format02X (r i % 256)), by simp, ?_, rfl⟩
    intro g hg
    simp only [List.mem_map] at hg
    obtain ⟨i, _, rfl⟩ := hg
    exact ⟨rfl, format02X_chars _ (Nat.mod_lt _ (by norm_num))⟩
  · intro r
    constructor
    · unfold generate_rid
      rw [join_length, List.map_map]
      have hconst : (String.length ∘ fun i => format02X (r i % 256)) = fun _ => 2 := by
        funext i
        exact format02X_length _
      rw [hconst, sum_map_const]
      simp
    · intro ch hch
      have hch' :
          ch ∈ (String.join ((List.range 16).map (fun i => format02X (r i % 256)))).data := hch
      rw [join_data, List.mem_flatten] at hch'
      obtain ⟨ld, hld, hchld⟩ := hch'
      rw [List.mem_map] at hld
      obtain ⟨s, hs, rfl⟩ := hld
      rw [List.mem_map] at hs
      obtain ⟨i, _, rfl⟩ := hs
      exact format02X_chars _ (Nat.mod_lt _ (by norm_num)) ch hchld
  · intro r len
    unfold generate_random_hex
    rw [join_length, List.map_map]
    have hconst : (String.length ∘ fun i => String.mk [hexDigit (r i % 16)]) = fun _ => 1 := by
      funext i
      rfl
    rw [hconst, sum_map_const, List.length_range, one_mul]

/-- Witness for C9: a concrete rid has 32 characters. -/
theorem c9_witness : (generate_rid rng0).length = 32 := (c9_generators.2.1 rng0).1

/-! ### Claim C2 -/

/-- Claim C2: the result derivation of `perform_google_login` admits
exactly three outcomes — token captured: success with that token plus
freshly synthesized user-agent and MAC strings; else driver failure:
that failure verbatim; else the distinct no-token failure — and no other
combination of fields is reachable. -/
theorem c2_result_derivation (captured : Option String) (login_result : Except String Unit)
    (r_ua : Nat) (r_mac : Nat → Nat) :
    (∃ t, captured = some t
        ∧ deriveResult captured login_result r_ua r_mac
          = { success := true, token := some t,
              user_agent := some (generate_random_user_agent r_ua),
              mac_address := some (generate_random_mac_address r_mac), error := none })
      ∨ (∃ e, captured = none ∧ login_result = .error e
        ∧ deriveResult captured login_result r_ua r_mac
          = { success := false, token := none, user_agent := none, mac_address := none,
              error := some e })
      ∨ (captured = none ∧ login_result = .ok ()
        ∧ deriveResult captured login_result r_ua r_mac
          = { success := false, token := none, user_agent := none, mac_address := none,
              error := some "Login successful but no token captured" }) := by
  cases captured with
  | some t => exact Or.inl ⟨t, rfl, rfl⟩
  | none =>
    cases login_result with
    | error e => exact Or.inr (Or.inl ⟨e, rfl, rfl, rfl⟩)
    | ok u =>
      cases u
      exact Or.inr (Or.inr ⟨rfl, rfl, rfl⟩)

/-! ### Claim C3 -/

/-- A flow environment in which the optional identifier `Next` button is
found but clicking it fails. -/
def idNextClickFailFlow : FlowEnv :=
  { allOkFlow with
    find_identifier_next := true,
    identifier_next_click := .error "click intercepted" }

/-- Claim C3 fails on the code: when the optional `#identifierNext` button
is found but the click on it fails, the `?` operator propagates the
formatted error and the whole flow aborts — the failure is not
swallowed. -/
theorem c3_counterexample :
    google_login_flow idNextClickFailFlow creds0
      = .error "[Google Login] Failed to click next button: click intercepted" := rfl

/-- Claim C3 amended: absence of an optional element (the `Next` buttons,
the recovery prompt) is swallowed and the flow continues — in particular
a fully successful mandatory path with no optional element found ends in
`.ok` — and the recovery-step interaction outcomes never influence the
result; but a failed click on a found optional `Next` button (identifier
or password) aborts the attempt with a descriptive error. -/
theorem c3_amended (env : FlowEnv) (c : LoginCredentials) (e : String)
    (x y : Except String Unit) :
    (env.goto_google = .ok () → env.find_email = true → env.email_click_type = .ok () →
      env.find_pass = true → env.pass_click_type = .ok () →
      env.find_identifier_next = false → env.find_password_next = false →
      env.goto_growtopia = .ok () →
      google_login_flow env c = .ok ())
      ∧ google_login_flow env c
        = google_login_flow { env with recovery_click_type := x, recovery_next_click := y } c
      ∧ (env.goto_google = .ok () → env.find_email = true → env.email_click_type = .ok () →
        env.find_identifier_next = true → env.identifier_next_click = .error e →
        google_login_flow env c
          = .error ("[Google Login] Failed to click next button: " ++ e))
      ∧ (env.goto_google = .ok () → env.find_email = true → env.email_click_type = .ok () →
        (env.find_identifier_next = true → env.identifier_next_click = .ok ()) →
        env.find_pass = true → env.pass_click_type = .ok () →
        env.find_password_next = true → env.password_next_click = .error e →
        google_login_flow env c
          = .error ("[Google Login] Failed to click password next button: " ++ e)) := by
  refine ⟨?_, ?_, ?_, ?_⟩
  · intro h1 h2 h3 h4 h5 h6 h7 h8
    simp [google_login_flow, h1, h2, h3, h4, h5, h6, h7, h8]
  · rfl
  · intro h1 h2 h3 h4 h5
    simp [google_login_flow, h1, h2, h3, h4, h5]
  · intro h1 h2 h3 hidn h4 h5 h6 h7
    cases hin : env.find_identifier_next with
    | false => simp [google_login_flow, h1, h2, h3, hin, h4, h5, h6, h7]
    | true =>
      have hclick : env.identifier_next_click = .ok () := hidn hin
      simp [google_login_flow, h1, h2, h3, hin, hclick, h4, h5, h6, h7]

/-- Witness for the amended C3: with no optional element found the flow
succeeds; a found identifier `Next` whose click fails aborts; and a found
password `Next` whose click fails aborts. -/
theorem c3_witness :
    google_login_flow allOkFlow creds0 = .ok ()
      ∧ google_login_flow
          { allOkFlow with
            find_identifier_next := true,
            identifier_next_click := Except.error "boom" } creds0
        = .error ("[Google Login] Failed to click next button: " ++ "boom")
      ∧ google_login_flow
          { allOkFlow with
            find_password_next := true,
            password_next_click := Except.error "thud" } creds0
        = .error ("[Google Login] Failed to click password next button: " ++ "thud") :=
  ⟨(c3_amended allOkFlow creds0 "boom" (.ok ()) (.ok ())).1 rfl rfl rfl rfl rfl rfl rfl rfl,
   (c3_amended
      { allOkFlow with
        find_identifier_next := true,
        identifier_next_click := Except.error "boom" } creds0 "boom" (.ok ()) (.ok ())).2.2.1
     rfl rfl rfl rfl rfl,
   (c3_amended
      { allOkFlow with
        find_password_next := true,
        password_next_click := Except.error "thud" } creds0 "thud" (.ok ()) (.ok ())).2.2.2
     rfl rfl rfl (fun h => by simp [allOkFlow] at h) rfl rfl rfl rfl⟩

/-! ### Claim C4 -/

/-- A launch-phase environment in which the browser launch fails. -/
def launchFailEnv : BrowserEnv :=
  { config_build := .ok (), launch := .error "chrome process exited", new_page := .ok (),
    events := [], flow := allOkFlow }

/-- Claim C4 fails on the code:
`Browser::launch_with_handler(config, handler).await.unwrap()` panics on a
launch failure, so the failure is not surfaced as an error value in a
`LoginResult`; the run ends in the panic outcome. -/
theorem c4_counterexample :
    perform_google_login launchFailEnv creds0 0 rng0 = .error "chrome process exited" := rfl

/-- Claim C4 amended: if the browser launch fails (the configuration build
having succeeded), `perform_google_login` panics with that failure —
modelled as the exceptional outcome — and returns no `LoginResult` at
all. -/
theorem c4_amended (env : BrowserEnv) (c : LoginCredentials) (r_ua : Nat)
    (r_mac : Nat → Nat) (e : String)
    (h1 : env.config_build = .ok ()) (h2 : env.launch = .error e) :
    perform_google_login env c r_ua r_mac = .error e := by
  simp [perform_google_login, h1, h2]

/-- Witness for the amended C4 at a concrete failing launch. -/
theorem c4_witness :
    perform_google_login { launchFailEnv with launch := Except.error "handshake failed" }
        creds0 0 rng0
      = .error "handshake failed" :=
  c4_amended { launchFailEnv with launch := Except.error "handshake failed" }
    creds0 0 rng0 "handshake failed" rfl rfl

/-! ### Claim C6 -/

/-- A request event carrying a qualifying token-bearing body. -/
def tokenEvent : RequestEvent :=
  ⟨"https://growtopiagame.com/login", some "growtopia_token=x"⟩

/-- An environment in which the mandatory identifier step fails (email
input not found) while a qualifying token request was still captured. -/
def emailMissingEnv : BrowserEnv :=
  { config_build := .ok (), launch := .ok (), new_page := .ok (),
    events := [tokenEvent],
    flow := { allOkFlow with find_email := false } }

/-- Claim C6 fails on the code: the token slot is consulted first in the
result derivation, so a captured token yields `success = true` even though
the driver failed at the mandatory identifier step — the claim that the
slot is never consulted for success is contradicted. -/
theorem c6_counterexample :
    perform_google_login emailMissingEnv creds0 0 rng0
      = .ok { success := true, token := some "x",
              user_agent := some (generate_random_user_agent 0),
              mac_address := some (generate_random_mac_address rng0), error := none } := rfl

/-- Claim C6 amended: if the driver fails at the mandatory identifier step
(email input not found) and the token slot is empty, the final
`LoginResult` has `success = false` and the identifier-step error; the
slot is consulted first and determines success when non-empty. -/
theorem c6_amended (env : BrowserEnv) (c : LoginCredentials) (r_ua : Nat) (r_mac : Nat → Nat)
    (h1 : env.config_build = .ok ()) (h2 : env.launch = .ok ()) (h3 : env.new_page = .ok ())
    (h4 : env.flow.goto_google = .ok ()) (h5 : env.flow.find_email = false)
    (h6 : processEvents env.events = none) :
    perform_google_login env c r_ua r_mac
      = .ok { success := false, token := none, user_agent := none, mac_address := none,
              error := some "[Google Login] Email input not found" } := by
  simp [perform_google_login, h1, h2, h3, h6, google_login_flow, h4, h5, deriveResult]

/-- Witness for the amended C6: identifier step fails and no event was
captured. -/
theorem c6_witness :
    perform_google_login { emailMissingEnv with events := [] } creds0 0 rng0
      = .ok { success := false, token := none, user_agent := none, mac_address := none,
              error := some "[Google Login] Email input not found" } :=
  c6_amended { emailMissingEnv with events := [] } creds0 0 rng0 rfl rfl rfl rfl rfl rfl

/-! ### Claim C10 -/

/-- The field coupling claimed for every returned `LoginResult`: success
iff a token is present, iff no error is present; user-agent and MAC
present exactly on success. -/
def resultInvariant (res : LoginResult) : Prop :=
  (res.success = true ↔ res.token.isSome = true)
    ∧ (res.success = true ↔ res.error = none)
    ∧ (res.user_agent.isSome = true ↔ res.success = true)
    ∧ (res.mac_address.isSome = true ↔ res.success = true)

theorem deriveResult_invariant (captured : Option String) (lr : Except String Unit)
    (r_ua : Nat) (r_mac : Nat → Nat) :
    resultInvariant (deriveResult captured lr r_ua r_mac) := by
  cases captured with
  | some t => simp [deriveResult, resultInvariant]
  | none => cases lr <;> simp [deriveResult, resultInvariant]

/-- Claim C10: every `LoginResult` produced by `perform_google_login` —
on the success path, both failure paths, and the feature-disabled path —
satisfies the success/token/error/user-agent/MAC coupling. -/
theorem c10_invariant :
    (∀ (env : BrowserEnv) (c : LoginCredentials) (r_ua : Nat) (r_mac : Nat → Nat)
      (res : LoginResult),
      perform_google_login env c r_ua r_mac = .ok res → resultInvariant res)
      ∧ resultInvariant perform_google_login_disabled := by
  constructor
  · intro env c r_ua r_mac res h
    unfold perform_google_login at h
    cases h1 : env.config_build with
    | error e =>
      rw [h1] at h
      simp at h
    | ok u =>
      rw [h1] at h
      cases h2 : env.launch with
      | error e =>
        rw [h2] at h
        simp at h
      | ok u2 =>
        rw [h2] at h
        cases h3 : env.new_page with
        | error e =>
          rw [h3] at h
          simp at h
        | ok u3 =>
          rw [h3] at h
          simp only [Except.ok.injEq] at h
          rw [← h]
          exact deriveResult_invariant _ _ _ _
  · simp [resultInvariant, perform_google_login_disabled]

/-- Witness for C10 on a concrete run (flow succeeds, no token captured). -/
theorem c10_witness :
    resultInvariant
      { success := false, token := none, user_agent := none, mac_address := none,
        error := some "Login successful but no token captured" } :=
  c10_invariant.1 allOkEnv creds0 0 rng0
    { success := false, token := none, user_agent := none, mac_address := none,
      error := some "Login successful but no token captured" } rfl

end Mori
